import Mathlib

/-!
# Verification of the study-platform turn orchestrator

Shallow embedding of the routing, validation, verification and revision
logic of the study platform (`agents.py`, `graph.py`, `storage.py`,
`models.py`), together with proofs of the spec's testable properties.

External collaborators (the completion backend, the `json` module's
decoder and the `re` module's matcher) are not code of this repository;
they enter the embedding as explicit function parameters or as
already-parsed values at the call boundary, exactly where the source
hands text to them.
-/

/-! ## JSON values (the image of `json.loads`) -/

/-- A JSON value as decoded by Python's `json.loads`: null, booleans,
numbers (modelled as rationals), strings, arrays and objects. -/
inductive JValue where
  | null : JValue
  | bool (b : Bool) : JValue
  | num (q : ℚ) : JValue
  | str (s : String) : JValue
  | arr (xs : List JValue) : JValue
  | obj (kvs : List (String × JValue)) : JValue

/-- A decoded JSON object: association list of fields (keys unique as
produced by `json.loads`). -/
abbrev JObj := List (String × JValue)

/-- Python `dict.get(k, default)` restricted to lookup: the value at key
`k`, if present. -/
def jGet (d : JObj) (k : String) : Option JValue :=
  (d.find? (fun p => p.1 == k)).map (·.2)

/-! ## Python string helpers -/

/-- `needle.isPrefixOf`-based check of Python's `needle in haystack`
on character lists. -/
def charsIn : List Char → List Char → Bool
  | n, [] => n.isEmpty
  | n, h :: t => List.isPrefixOf n (h :: t) || charsIn n t

/-- Python `needle in haystack` for strings (substring containment). -/
def strIn (needle haystack : String) : Bool :=
  charsIn needle.data haystack.data

/-- Python `str.lower` (ASCII case folding, as used on the keyword and
topic strings of this program), character by character. -/
def pyLower (s : String) : String := ⟨s.data.map Char.toLower⟩

/-- Python `str.upper`, character by character. -/
def pyUpper (s : String) : String := ⟨s.data.map Char.toUpper⟩

/-- Python `str.capitalize`: first character upper-cased, the rest
lower-cased. -/
def pyCapitalize (s : String) : String :=
  match s.data with
  | [] => ""
  | c :: cs => ⟨c.toUpper :: cs.map Char.toLower⟩

/-! ## Subjects (`models.py`, class `Subject`) -/

/-- The `Subject` enumeration of `models.py`. -/
inductive Subject where
  | PYTHON | LANGGRAPH | LANGCHAIN | JAVASCRIPT | LLM
  | AUTOMATION | N8N | GOHIGHLEVEL | GENERAL
  deriving DecidableEq, Repr

/-- `Subject.value`: the string value of each enum member. -/
def Subject.value : Subject → String
  | .PYTHON => "python"
  | .LANGGRAPH => "langgraph"
  | .LANGCHAIN => "langchain"
  | .JAVASCRIPT => "javascript"
  | .LLM => "llm"
  | .AUTOMATION => "automation"
  | .N8N => "n8n"
  | .GOHIGHLEVEL => "gohighlevel"
  | .GENERAL => "general"

/-! ## Intent heuristics (`agents.py` lines 33-140) -/

/-- `SIMPLIFY_KEYWORDS` (`agents.py`): phrases signalling that the user
wants a simpler explanation, not a topic change. -/
def SIMPLIFY_KEYWORDS : List String :=
  [ "im not a tech person", "i'm not a tech person", "not a tech person",
    "i dont understand", "i don't understand", "don't understand", "dont understand",
    "confusing", "confused", "explain simpler", "explain it simpler",
    "explain like im 5", "explain like i'm 5", "explain like im 12", "explain like i'm 12",
    "eli5", "in order", "in order way", "tell me in order",
    "break it down", "break down", "use simple words", "simpler words",
    "too technical", "too complicated", "too complex", "what does that mean",
    "what do you mean", "what do u mean", "explain that", "can you simplify", "simplify",
    "dumb it down", "layman terms", "layman's terms", "plain english",
    "beginner friendly", "for beginners", "simple explanation",
    "what do u mean by that", "what does that mean by that", "huh", "what" ]

/-- `detect_simplify_intent` (`agents.py`): case-insensitive substring
membership against `SIMPLIFY_KEYWORDS`. -/
def detect_simplify_intent (message : String) : Bool :=
  SIMPLIFY_KEYWORDS.any (fun keyword => strIn keyword (pyLower message))

/-! ## Router-result validation (`agents.py`, `validate_router_result`) -/

/-- The `valid_modes` list of `validate_router_result`. -/
def valid_modes : List String :=
  ["ANSWER", "TEACH", "QUIZ", "DEBUG", "ASK_CLARIFY", "SIMPLIFY"]

/-- The `valid_topics` list of `validate_router_result`. -/
def valid_topics : List String :=
  ["LangGraph", "Python", "LangChain", "JavaScript", "LLM",
   "Automation", "n8n", "GoHighLevel", "Unknown"]

/-- A normalized routing decision (the dict returned by
`validate_router_result`, and the dicts built by `router_node`). -/
structure RouterResult where
  mode : String
  topic : String
  confidence : ℚ
  missing_info : List JValue
  reason : JValue

/-- `result.get("mode", "ASK_CLARIFY").upper()` then membership in
`valid_modes`. Calling `.upper()` on a non-string raises
`AttributeError`, modelled as `Except.error`. -/
def normMode (v : Option JValue) : Except String String :=
  match v with
  | none => .ok (let m := pyUpper "ASK_CLARIFY"; if m ∈ valid_modes then m else "ASK_CLARIFY")
  | some (.str s) => .ok (let m := pyUpper s; if m ∈ valid_modes then m else "ASK_CLARIFY")
  | some _ => .error "AttributeError: object has no attribute upper"

/-- `topic.lower()` looked up in `topic_map` (lower-cased valid topics
mapped to their canonical capitalization), default `"Unknown"`. Calling
`.lower()` on a non-string raises `AttributeError`. -/
def normTopic (v : Option JValue) : Except String String :=
  let canon : String → String := fun t =>
    match (valid_topics.find? (fun c => pyLower c == pyLower t)) with
    | some c => c
    | none => "Unknown"
  match v with
  | none => .ok (canon "Unknown")
  | some (.str s) => .ok (canon s)
  | some _ => .error "AttributeError: object has no attribute lower"

/-- `confidence` handling: default `0.5` when missing or not an
`isinstance` of `(int, float)` — in Python booleans are `int`s, so JSON
booleans coerce to `1.0`/`0.0` — then `max(0.0, min(1.0, float(c)))`. -/
def normConf (v : Option JValue) : ℚ :=
  let c : ℚ :=
    match v with
    | some (.num q) => q
    | some (.bool b) => if b then 1 else 0
    | _ => 1 / 2
  max 0 (min 1 c)

/-- `missing_info` handling: keep when a list, default `[]` otherwise. -/
def normMissing (v : Option JValue) : List JValue :=
  match v with
  | some (.arr xs) => xs
  | _ => []

/-- `reason` handling: `result.get("reason", "")`. -/
def normReason (v : Option JValue) : JValue :=
  match v with
  | some r => r
  | none => .str ""

/-- `validate_router_result` (`agents.py` lines 82-117): validate and
normalize a parsed router result, filling defaults for missing fields.
Raises (`Except.error`) when `mode` or `topic` is present but not a
string, as the Python code would. -/
def validate_router_result (result : JObj) : Except String RouterResult := do
  let mode ← normMode (jGet result "mode")
  let topic ← normTopic (jGet result "topic")
  pure { mode := mode
         topic := topic
         confidence := normConf (jGet result "confidence")
         missing_info := normMissing (jGet result "missing_info")
         reason := normReason (jGet result "reason") }

/-! ## Defensive JSON extraction (`agents.py`, `parse_router_json`) -/

/-- Python `str.find(c)`: index of the first occurrence, `-1` if absent. -/
def pyFind (s : String) (c : Char) : Int :=
  match s.data.findIdx? (· == c) with
  | some i => (i : Int)
  | none => -1

/-- Python `str.rfind(c)`: index of the last occurrence, `-1` if absent. -/
def pyRFind (s : String) (c : Char) : Int :=
  match s.data.reverse.findIdx? (· == c) with
  | some i => (s.data.length - 1 - i : Int)
  | none => -1

/-- Python slice `s[a:b]` for `0 ≤ a ≤ b`. -/
def pySlice (s : String) (a b : Nat) : String :=
  ⟨(s.data.drop a).take (b - a)⟩

/-- `parse_router_json` (`agents.py` lines 56-79). The two external
collaborators enter as parameters: `reSearch` is the `re.search` of the
fenced-block pattern (returning its captured brace-delimited group) and
`jsonLoads` is `json.loads` restricted to this call site, where every
candidate string is brace-delimited, so a successful decode is an object
(`none` models `json.JSONDecodeError`). First tries the fenced block; on
failure, the outermost brace-delimited region; else `none`. -/
def parse_router_json (reSearch : String → Option String)
    (jsonLoads : String → Option JObj) (response_text : String) : Option JObj :=
  let rawAttempt : Option JObj :=
    let start := pyFind response_text '{'
    let stop := pyRFind response_text '}' + 1
    if start ≠ -1 ∧ start < stop then
      jsonLoads (pySlice response_text start.toNat stop.toNat)
    else none
  match reSearch response_text with
  | some group =>
    match jsonLoads group with
    | some o => some o
    | none => rawAttempt
  | none => rawAttempt

/-! ## The turn state (`state.py`, `StudyState`) -/

/-- A conversation message, reduced to the two observables the
orchestrator inspects: its text content and whether it carries pending
tool calls. -/
structure Message where
  content : String
  toolCalls : Bool
  deriving DecidableEq

/-- The graph state (`state.py`): the fields of `StudyState` that the
router, verifier and revise nodes read or write. The `messages` field
uses the `add_messages` reducer, so node updates append. -/
structure StudyState where
  messages : List Message
  current_subject : Option Subject
  user_message : String
  style : String
  user_level : String
  last_subject_question : Option String
  last_assistant_answer : Option String
  attempts_clarify : ℤ
  router_result : Option RouterResult
  verifier_passed : Bool
  verifier_feedback : Option JValue

/-! ## The router node (`agents.py`, `router_node`) -/

/-- The `topic_to_subject` mapping of `router_node`. -/
def topic_to_subject : List (String × Subject) :=
  [ ("langgraph", .LANGGRAPH), ("python", .PYTHON), ("langchain", .LANGCHAIN),
    ("javascript", .JAVASCRIPT), ("llm", .LLM), ("automation", .AUTOMATION),
    ("n8n", .N8N), ("gohighlevel", .GOHIGHLEVEL), ("unknown", .GENERAL) ]

/-- `topic_to_subject.get(topic.lower(), Subject.GENERAL)`. -/
def subjectOfTopic (topic : String) : Subject :=
  ((topic_to_subject.find? (fun p => p.1 == pyLower topic)).map (·.2)).getD .GENERAL

/-- The routing decision built on the simplify fast path of `router_node`
(`agents.py` lines 331-337) for current subject `s`. -/
def fastRR (s : Subject) : RouterResult :=
  { mode := "SIMPLIFY"
    topic := if s ≠ .GENERAL then pyCapitalize s.value else "Unknown"
    confidence := 1
    missing_info := []
    reason := .str "User requested simpler explanation of current topic" }

/-- The state written by the simplify fast path of `router_node`
(`agents.py` lines 338-344), merged into the incoming state. -/
def fastState (st : StudyState) (s : Subject) : StudyState :=
  { st with current_subject := some s, style := "simple",
            user_level := "beginner", router_result := some (fastRR s),
            attempts_clarify := 0 }

/-- The fallback decision `router_node` synthesizes when
`parse_router_json` returns `None` (`agents.py` lines 397-405):
ASK_CLARIFY at confidence `0.3`, keeping the prior topic when one
exists. -/
def fallbackRR (st : StudyState) : RouterResult :=
  { mode := "ASK_CLARIFY"
    topic := match st.current_subject with
             | some s => s.value
             | none => "Unknown"
    confidence := 3 / 10
    missing_info := [.str "Could not parse routing decision"]
    reason := .str "JSON parsing failed, requesting clarification" }

/-- RULE 2 of `router_node` (`agents.py` lines 409-411): low confidence
with fewer than two clarify attempts forces mode `ASK_CLARIFY`. -/
def gateRR (st : StudyState) (rr₀ : RouterResult) : RouterResult :=
  if rr₀.confidence < 13 / 20 ∧ st.attempts_clarify < 2 then
    { rr₀ with mode := "ASK_CLARIFY" }
  else rr₀

/-- The state update of the classification path of `router_node`
(`agents.py` lines 413-445), applied to the gated decision: subject
mapping, style selection, last-question tracking and clarify-attempt
counting, merged into the incoming state. -/
def classifyState (st : StudyState) (rr₀ : RouterResult) : StudyState :=
  let rr := gateRR st rr₀
  let subject := subjectOfTopic rr.topic
  { st with current_subject := some subject,
            style := if rr.mode == "SIMPLIFY" then "simple" else "normal",
            router_result := some rr,
            last_subject_question :=
              if subject ≠ .GENERAL ∧ rr.mode ∉ ["SIMPLIFY", "ASK_CLARIFY"] then
                some st.user_message
              else st.last_subject_question,
            attempts_clarify :=
              if rr.mode == "ASK_CLARIFY" then st.attempts_clarify + 1 else 0 }

/-- The backend-classification path of `router_node` (`agents.py` lines
346-445): validate the parsed backend reply (or synthesize the fallback
when parsing failed), apply the confidence gate, and update the state.
The `true` component records that the completion backend was invoked. -/
def router_classify (st : StudyState) (parsed : Option JObj) :
    Except String (StudyState × Bool) := do
  let rr₀ ← match parsed with
    | none => pure (fallbackRR st)
    | some p => validate_router_result p
  return (classifyState st rr₀, true)

/-- `router_node` (`agents.py` lines 302-445), with the LangGraph partial
update already merged into the state. The completion backend and the JSON
extraction are summarised at their boundary: `parsed` is the value
`parse_router_json(response.content)` would produce for the backend's
reply. The returned `Bool` records whether the completion backend was
invoked (`False` on the simplify fast path, which returns before the
`llm.invoke` call). `Except.error` models an uncaught Python exception
(from `validate_router_result`). -/
def router_node (st : StudyState) (parsed : Option JObj) :
    Except String (StudyState × Bool) :=
  -- RULE 1: simplify intent with an existing subject short-circuits
  match st.current_subject with
  | some subj =>
    if detect_simplify_intent st.user_message then
      .ok (fastState st subj, false)
    else router_classify st parsed
  | none => router_classify st parsed

/-! ## Conditional edges (`agents.py`, `should_continue` / `should_revise`) -/

/-- The `Literal["tools", "verifier", "end"]` result of `should_continue`. -/
inductive ContinueRoute where
  | tools | verifier | done
  deriving DecidableEq, Repr

/-- `should_continue` (`agents.py` lines 541-557): tool calls pending →
`tools`; verifier not yet passed → `verifier`; otherwise end the turn.
`messages[-1]` on an empty history raises `IndexError`, modelled as
`none`. -/
def should_continue (st : StudyState) : Option ContinueRoute :=
  st.messages.getLast?.map (fun last_message =>
    if last_message.toolCalls then .tools
    else if ¬ st.verifier_passed then .verifier
    else .done)

/-- The `Literal["revise", "end"]` result of `should_revise`. -/
inductive ReviseRoute where
  | revise | done
  deriving DecidableEq, Repr

/-- `should_revise` (`agents.py` lines 700-704). -/
def should_revise (st : StudyState) : ReviseRoute :=
  if ¬ st.verifier_passed then .revise else .done

/-! ## The verifier node (`agents.py`, `verifier_node`) -/

/-- Python truthiness of a decoded JSON value. -/
def truthy : JValue → Bool
  | .null => false
  | .bool b => b
  | .num q => decide (q ≠ 0)
  | .str s => decide (s ≠ "")
  | .arr xs => ¬ xs.isEmpty
  | .obj kvs => ¬ kvs.isEmpty

/-- The outcome of the quality-gate backend interaction inside the
verifier's `try` block: the `llm.invoke` call raised, or it returned and
`parse_router_json` produced `parsed`. -/
inductive VerdictCall where
  | failure
  | response (parsed : Option JObj)

/-- `verifier_node` (`agents.py` lines 560-644), update merged into the
state; the returned `Bool` records whether the quality-gate backend was
invoked. Skips (approving unconditionally) when the history is empty,
the last message carries tool calls, the style is `simple`, the reply is
shorter than 100 characters, or the subject is not LangGraph; otherwise
consults the backend, failing the reply only when the parsed verdict is
a non-empty object whose `pass` field is falsy, and letting any backend
exception or unparseable verdict pass. -/
def verifier_node (st : StudyState) (verdict : VerdictCall) : StudyState × Bool :=
  match st.messages.getLast? with
  | none => ({ st with verifier_passed := true }, false)
  | some last_message =>
    if last_message.toolCalls then ({ st with verifier_passed := true }, false)
    else if st.style == "simple" then ({ st with verifier_passed := true }, false)
    else if last_message.content.length < 100 then ({ st with verifier_passed := true }, false)
    else if st.current_subject ≠ some .LANGGRAPH then ({ st with verifier_passed := true }, false)
    else
      match verdict with
      | .failure => ({ st with verifier_passed := true }, true)
      | .response parsed =>
        match parsed with
        | some p =>
          if ¬ p.isEmpty ∧ truthy ((jGet p "pass").getD (.bool true)) = false then
            ({ st with verifier_passed := false,
                       verifier_feedback := some ((jGet p "suggestion").getD
                         (.str "Be more specific about LangGraph mechanisms.")) }, true)
          else ({ st with verifier_passed := true }, true)
        | none => ({ st with verifier_passed := true }, true)

/-! ## The revise node (`agents.py`, `revise_node`) -/

/-- `revise_node` (`agents.py` lines 647-697), update merged into the
state. `revisedContent` is the rewritten reply produced by the
completion backend. The returned `{"messages": [revised_message]}`
partial update goes through the `add_messages` reducer, which appends
the fresh `AIMessage`; the appended message carries no tool calls. -/
def revise_node (st : StudyState) (revisedContent : String) : StudyState :=
  if st.messages.isEmpty then { st with verifier_passed := true }
  else
    { st with messages := st.messages ++ [⟨revisedContent, false⟩],
              verifier_passed := true,
              last_assistant_answer := some revisedContent }

/-! ## The graph wiring (`graph.py`, `create_study_graph`) -/

/-- The nodes of the compiled study graph, plus the `END` sentinel. -/
inductive GNode where
  | router | assistant | tools | verifier | revise | terminal
  deriving DecidableEq, Repr

/-- The edge structure of `create_study_graph` (`graph.py` lines 36-77):
the node executed after `n` finishes with state `st`. `router` →
`assistant`; `assistant` branches through `should_continue`; `tools` →
`assistant`; `verifier` branches through `should_revise`; `revise` →
`END`. `none` from `terminal` (nothing follows `END`) or when
`should_continue` itself raises. -/
def graph_next (n : GNode) (st : StudyState) : Option GNode :=
  match n with
  | .router => some .assistant
  | .assistant =>
    (should_continue st).map (fun r =>
      match r with
      | .tools => .tools
      | .verifier => .verifier
      | .done => .terminal)
  | .tools => some .assistant
  | .verifier =>
    some (match should_revise st with
          | .revise => .revise
          | .done => .terminal)
  | .revise => some .terminal
  | .terminal => none

/-- The turn's final answer as extracted by `chat` (`graph.py`):
`result["messages"][-1].content`. -/
def finalAnswer (st : StudyState) : Option String :=
  st.messages.getLast?.map (·.content)

/-! ## Note storage (`models.py`, `Note`; `storage.py`, `search_notes`) -/

/-- A study note (`models.py`, class `Note`); the creation timestamp is
irrelevant to search and omitted. -/
structure Note where
  id : String
  subject : Subject
  content : String
  tags : List String
  deriving DecidableEq

/-- `StudyStorage.search_notes` (`storage.py` lines 39-48) applied to the
per-subject note list `self._notes[subject]`: walk the notes in order,
appending a note when the lower-cased query occurs in its lower-cased
content, or else (`elif`) in some lower-cased tag. -/
def search_notes (notes : List Note) (query : String) : List Note :=
  let query_lower := pyLower query
  go query_lower notes
where
  go (query_lower : String) : List Note → List Note
    | [] => []
    | note :: rest =>
      if strIn query_lower (pyLower note.content) then
        note :: go query_lower rest
      else if note.tags.any (fun tag => strIn query_lower (pyLower tag)) then
        note :: go query_lower rest
      else go query_lower rest

/-! ## Helper lemmas -/

lemma router_node_simplify (st : StudyState) (s : Subject) (parsed : Option JObj)
    (hs : st.current_subject = some s)
    (hd : detect_simplify_intent st.user_message = true) :
    router_node st parsed = .ok (fastState st s, false) := by
  unfold router_node
  rw [hs, hd]
  rfl

/-- Mapping the fast-path topic string back through `topic_to_subject`
recovers the subject (`pyCapitalize` then `pyLower` round-trips on every
subject value, and `"Unknown"` maps to the general subject). -/
lemma subjectOfTopic_fastRR (s : Subject) : subjectOfTopic (fastRR s).topic = s := by
  cases s <;> decide

/-! ## Example states for concrete instantiations -/

/-- A session state mid-conversation on the LangGraph subject whose
current utterance is a simplify request. -/
def exSt : StudyState :=
  { messages := [], current_subject := some .LANGGRAPH,
    user_message := "i don't understand",
    style := "normal", user_level := "beginner",
    last_subject_question := some "what is a reducer",
    last_assistant_answer := none, attempts_clarify := 1,
    router_result := none, verifier_passed := false,
    verifier_feedback := none }

/-- A session state whose utterance is a new substantive question
containing the word `what`. -/
def exSt10 : StudyState :=
  { exSt with user_message := "what is a reducer in LangGraph",
              attempts_clarify := 0 }

/-! ## Claims -/

/-- C1: on a simplify-intent utterance with a non-None current subject,
the router short-circuits: the decision has mode `SIMPLIFY`, a topic
denoting the prior subject, confidence `1.0`; the completion backend is
not called (the `false` component); the post-turn subject equals the
pre-turn subject, the style becomes `simple`, and the
clarification-attempt counter resets to `0`. -/
theorem simplify_fast_path (st : StudyState) (s : Subject) (parsed : Option JObj)
    (hs : st.current_subject = some s)
    (hd : detect_simplify_intent st.user_message = true) :
    router_node st parsed = .ok (fastState st s, false) ∧
    (fastRR s).mode = "SIMPLIFY" ∧
    (fastRR s).confidence = 1 ∧
    subjectOfTopic (fastRR s).topic = s ∧
    (fastState st s).current_subject = st.current_subject ∧
    (fastState st s).style = "simple" ∧
    (fastState st s).attempts_clarify = 0 :=
  ⟨router_node_simplify st s parsed hs hd, rfl, rfl, subjectOfTopic_fastRR s,
   by simp [fastState, hs], rfl, rfl⟩

/-- Witness for C1 at a concrete state: subject LangGraph, utterance
"i don't understand". -/
theorem simplify_fast_path_witness :
    exSt.current_subject = some Subject.LANGGRAPH ∧
    detect_simplify_intent exSt.user_message = true ∧
    (router_node exSt none = .ok (fastState exSt .LANGGRAPH, false) ∧
     (fastRR Subject.LANGGRAPH).mode = "SIMPLIFY" ∧
     (fastRR Subject.LANGGRAPH).confidence = 1 ∧
     subjectOfTopic (fastRR Subject.LANGGRAPH).topic = Subject.LANGGRAPH ∧
     (fastState exSt .LANGGRAPH).current_subject = exSt.current_subject ∧
     (fastState exSt .LANGGRAPH).style = "simple" ∧
     (fastState exSt .LANGGRAPH).attempts_clarify = 0) :=
  ⟨rfl, by decide, simplify_fast_path exSt .LANGGRAPH none rfl (by decide)⟩

/-- C10: the simplify keyword set contains the bare substring `what`, so
every utterance containing `what` (case-insensitively) is classified as
simplify intent; with a current subject present, such a turn takes the
fast path — the structured classifier is never consulted (`false`
component), the style is latched to `simple` and the previous subject is
kept regardless of what the utterance asks about. -/
theorem what_keyword_fast_path (st : StudyState) (s : Subject) (parsed : Option JObj)
    (hs : st.current_subject = some s)
    (hw : strIn "what" (pyLower st.user_message) = true) :
    detect_simplify_intent st.user_message = true ∧
    router_node st parsed = .ok (fastState st s, false) ∧
    (fastState st s).style = "simple" ∧
    (fastState st s).current_subject = some s := by
  have hd : detect_simplify_intent st.user_message = true := by
    unfold detect_simplify_intent
    rw [List.any_eq_true]
    exact ⟨"what", by decide, hw⟩
  exact ⟨hd, router_node_simplify st s parsed hs hd, rfl, rfl⟩

/-- Witness for C10 at the substantive question
"what is a reducer in LangGraph". -/
theorem what_keyword_fast_path_witness :
    exSt10.current_subject = some Subject.LANGGRAPH ∧
    strIn "what" (pyLower exSt10.user_message) = true ∧
    (detect_simplify_intent exSt10.user_message = true ∧
     router_node exSt10 none = .ok (fastState exSt10 .LANGGRAPH, false) ∧
     (fastState exSt10 .LANGGRAPH).style = "simple" ∧
     (fastState exSt10 .LANGGRAPH).current_subject = some Subject.LANGGRAPH) :=
  ⟨rfl, by decide, what_keyword_fast_path exSt10 .LANGGRAPH none rfl (by decide)⟩

lemma router_node_classify (st : StudyState) (parsed : Option JObj)
    (hf : st.current_subject = none ∨ detect_simplify_intent st.user_message = false) :
    router_node st parsed = router_classify st parsed := by
  unfold router_node
  rcases hf with h | h
  · rw [h]
  · cases hcs : st.current_subject with
    | none => rfl
    | some s => rw [h]; rfl

lemma router_classify_none (st : StudyState) :
    router_classify st none = .ok (classifyState st (fallbackRR st), true) := rfl

lemma router_classify_some_ok (st : StudyState) (p : JObj) (rr₀ : RouterResult)
    (hv : validate_router_result p = .ok rr₀) :
    router_classify st (some p) = .ok (classifyState st rr₀, true) := by
  unfold router_classify
  dsimp only
  rw [hv]
  rfl

lemma router_classify_some_err (st : StudyState) (p : JObj) (e : String)
    (hv : validate_router_result p = .error e) :
    router_classify st (some p) = .error e := by
  unfold router_classify
  dsimp only
  rw [hv]
  rfl

lemma router_node_used_classify (st : StudyState) (parsed : Option JObj)
    (out : StudyState) (h : router_node st parsed = .ok (out, true)) :
    router_classify st parsed = .ok (out, true) := by
  by_cases hd : detect_simplify_intent st.user_message = true
  · cases hcs : st.current_subject with
    | none => rw [← router_node_classify st parsed (Or.inl hcs)]; exact h
    | some s =>
      rw [router_node_simplify st s parsed hcs hd] at h
      simp at h
  · rw [← router_node_classify st parsed (Or.inr (by simpa using hd))]
    exact h

/-- Any successful run of the classification path produces the
`classifyState` of some successfully validated (or fallback) decision. -/
lemma router_classify_ok (st : StudyState) (parsed : Option JObj)
    (out : StudyState) (used : Bool)
    (h : router_classify st parsed = .ok (out, used)) :
    used = true ∧ ∃ rr₀, out = classifyState st rr₀ ∧
      ((parsed = none ∧ rr₀ = fallbackRR st) ∨
       (∃ p, parsed = some p ∧ validate_router_result p = .ok rr₀)) := by
  cases parsed with
  | none =>
    rw [router_classify_none] at h
    simp only [Except.ok.injEq, Prod.mk.injEq] at h
    exact ⟨h.2.symm, fallbackRR st, h.1.symm, Or.inl ⟨rfl, rfl⟩⟩
  | some p =>
    cases hv : validate_router_result p with
    | error e =>
      rw [router_classify_some_err st p e hv] at h
      simp at h
    | ok rr₀ =>
      rw [router_classify_some_ok st p rr₀ hv] at h
      simp only [Except.ok.injEq, Prod.mk.injEq] at h
      exact ⟨h.2.symm, rr₀, h.1.symm, Or.inr ⟨p, rfl, hv⟩⟩

lemma gateRR_confidence (st : StudyState) (rr₀ : RouterResult) :
    (gateRR st rr₀).confidence = rr₀.confidence := by
  unfold gateRR; split <;> rfl

lemma classify_attempts (st : StudyState) (parsed : Option JObj) (out : StudyState)
    (used : Bool) (h : router_classify st parsed = .ok (out, used))
    (rr : RouterResult) (hrr : out.router_result = some rr) :
    (rr.mode = "ASK_CLARIFY" → out.attempts_clarify = st.attempts_clarify + 1) ∧
    (rr.mode ≠ "ASK_CLARIFY" → out.attempts_clarify = 0) ∧
    (0 ≤ st.attempts_clarify → 0 ≤ out.attempts_clarify) := by
  obtain ⟨-, rr₀, hout, -⟩ := router_classify_ok st parsed out used h
  subst hout
  have hgate : rr = gateRR st rr₀ := by simpa [classifyState] using hrr.symm
  subst hgate
  refine ⟨fun hm => by simp [classifyState, hm], fun hm => ?_, fun h0 => ?_⟩
  · simp only [classifyState]
    rw [if_neg]
    simp [hm]
  · simp only [classifyState]
    split
    · omega
    · omega

/-- C8: after any successful router turn, the clarification-attempt
counter equals the pre-turn counter plus one exactly when the turn's
final routing mode is `ASK_CLARIFY`, equals `0` for every other mode
(including the simplify fast path), and stays non-negative. -/
theorem attempts_counter (st : StudyState) (parsed : Option JObj) (out : StudyState)
    (used : Bool) (h : router_node st parsed = .ok (out, used))
    (rr : RouterResult) (hrr : out.router_result = some rr) :
    (rr.mode = "ASK_CLARIFY" → out.attempts_clarify = st.attempts_clarify + 1) ∧
    (rr.mode ≠ "ASK_CLARIFY" → out.attempts_clarify = 0) ∧
    (0 ≤ st.attempts_clarify → 0 ≤ out.attempts_clarify) := by
  by_cases hd : detect_simplify_intent st.user_message = true
  · cases hcs : st.current_subject with
    | some s =>
      rw [router_node_simplify st s parsed hcs hd] at h
      obtain ⟨h1, -⟩ : fastState st s = out ∧ false = used := by simpa using h
      subst h1
      have hfr : rr = fastRR s := by simpa [fastState] using hrr.symm
      subst hfr
      refine ⟨fun hm => ?_, fun _ => rfl, fun _ => by simp [fastState]⟩
      simp [fastRR] at hm
    | none =>
      rw [router_node_classify st parsed (Or.inl hcs)] at h
      exact classify_attempts st parsed out used h rr hrr
  · rw [router_node_classify st parsed (Or.inr (by simpa using hd))] at h
    exact classify_attempts st parsed out used h rr hrr

/-- Witness for C8 at the concrete simplify fast-path turn of `exSt`:
mode `SIMPLIFY` is not `ASK_CLARIFY`, so the counter resets to `0`. -/
theorem attempts_counter_witness :
    router_node exSt none = .ok (fastState exSt .LANGGRAPH, false) ∧
    (fastState exSt .LANGGRAPH).router_result = some (fastRR .LANGGRAPH) ∧
    (((fastRR Subject.LANGGRAPH).mode = "ASK_CLARIFY" →
        (fastState exSt .LANGGRAPH).attempts_clarify = exSt.attempts_clarify + 1) ∧
     ((fastRR Subject.LANGGRAPH).mode ≠ "ASK_CLARIFY" →
        (fastState exSt .LANGGRAPH).attempts_clarify = 0) ∧
     (0 ≤ exSt.attempts_clarify → 0 ≤ (fastState exSt .LANGGRAPH).attempts_clarify)) :=
  ⟨rfl, rfl, attempts_counter exSt none (fastState exSt .LANGGRAPH) false rfl
    (fastRR .LANGGRAPH) rfl⟩

lemma classify_gate (st : StudyState) (parsed : Option JObj) (out : StudyState)
    (used : Bool) (h : router_classify st parsed = .ok (out, used))
    (rr : RouterResult) (hrr : out.router_result = some rr)
    (hconf : rr.confidence < 13 / 20) (hatt : st.attempts_clarify < 2) :
    rr.mode = "ASK_CLARIFY" := by
  obtain ⟨-, rr₀, hout, -⟩ := router_classify_ok st parsed out used h
  subst hout
  have hg : rr = gateRR st rr₀ := by simpa [classifyState] using hrr.symm
  subst hg
  rw [gateRR_confidence] at hconf
  unfold gateRR
  rw [if_pos ⟨hconf, hatt⟩]

/-- The state with a third-turn utterance that is not a simplify request,
after two clarify rounds. -/
def exSt2 : StudyState :=
  { exSt with user_message := "explain the thing with the loops",
              attempts_clarify := 2 }

/-- A parsed backend reply that itself chooses `ASK_CLARIFY` at raw
confidence `0.3`. -/
def exParsed2 : JObj :=
  [("mode", .str "ASK_CLARIFY"), ("topic", .str "LangGraph"),
   ("confidence", .num (3 / 10))]

/-- The normalization of `exParsed2`. -/
def rrCexC2 : RouterResult :=
  { mode := "ASK_CLARIFY", topic := "LangGraph", confidence := 3 / 10,
    missing_info := [], reason := .str "" }

lemma validate_exParsed2 : validate_router_result exParsed2 = .ok rrCexC2 := by
  have hc : normConf (jGet exParsed2 "confidence") = 3 / 10 := by
    show max 0 (min 1 ((3 : ℚ) / 10)) = 3 / 10
    rw [min_eq_right (by norm_num), max_eq_right (by norm_num)]
  calc validate_router_result exParsed2
      = .ok { mode := "ASK_CLARIFY", topic := "LangGraph",
              confidence := normConf (jGet exParsed2 "confidence"),
              missing_info := [], reason := .str "" } := rfl
    _ = .ok rrCexC2 := by rw [hc]; rfl

/-- Counterexample to C2 as stated: after two clarify rounds
(`attempts_clarify = 2`), a third turn whose backend decision again has
raw confidence `0.3` but mode `ASK_CLARIFY` still produces an
`ASK_CLARIFY` decision — the gate is disabled, but nothing prevents the
classifier itself from asking to clarify again. -/
theorem clarify_loop_cap_counterexample :
    exSt2.attempts_clarify = 2 ∧
    router_node exSt2 (some exParsed2) = .ok (classifyState exSt2 rrCexC2, true) ∧
    (classifyState exSt2 rrCexC2).router_result = some rrCexC2 ∧
    rrCexC2.mode = "ASK_CLARIFY" ∧
    rrCexC2.confidence < 13 / 20 := by
  have hgate : gateRR exSt2 rrCexC2 = rrCexC2 := by
    unfold gateRR
    rw [if_neg (fun hc => absurd hc.2 (by norm_num [exSt2, exSt]))]
  refine ⟨rfl, ?_, ?_, rfl, by norm_num [rrCexC2]⟩
  · rw [router_node_classify _ _ (Or.inr (by decide))]
    exact router_classify_some_ok _ _ _ validate_exParsed2
  · show some (gateRR exSt2 rrCexC2) = some rrCexC2
    rw [hgate]

/-- C2 (amended): whenever the decision's normalized confidence is below
`0.65` and the pre-turn clarification counter is below `2`, the final
mode is forced to `ASK_CLARIFY`; and once the counter has reached `2`,
the gate is disabled — the decision is exactly the classifier's own
validated decision, so the turn commits to a topic whenever the
classifier's chosen mode is not itself `ASK_CLARIFY`. -/
theorem confidence_gate (st : StudyState) (parsed : Option JObj) (out : StudyState)
    (used : Bool) (h : router_node st parsed = .ok (out, used)) :
    (∀ rr, out.router_result = some rr → rr.confidence < 13 / 20 →
       st.attempts_clarify < 2 → rr.mode = "ASK_CLARIFY") ∧
    (2 ≤ st.attempts_clarify →
       ∀ p rr₀, parsed = some p → validate_router_result p = .ok rr₀ →
         used = true → out.router_result = some rr₀) := by
  constructor
  · intro rr hrr hconf hatt
    by_cases hd : detect_simplify_intent st.user_message = true
    · cases hcs : st.current_subject with
      | some s =>
        rw [router_node_simplify st s parsed hcs hd] at h
        obtain ⟨h1, -⟩ : fastState st s = out ∧ false = used := by simpa using h
        subst h1
        have hfr : rr = fastRR s := by simpa [fastState] using hrr.symm
        subst hfr
        norm_num [fastRR] at hconf
      | none =>
        rw [router_node_classify st parsed (Or.inl hcs)] at h
        exact classify_gate st parsed out used h rr hrr hconf hatt
    · rw [router_node_classify st parsed (Or.inr (by simpa using hd))] at h
      exact classify_gate st parsed out used h rr hrr hconf hatt
  · intro hatt p rr₀ hp hv hused
    subst hp
    subst hused
    have hcl := router_node_used_classify st (some p) out h
    rw [router_classify_some_ok st p rr₀ hv] at hcl
    obtain ⟨h1, -⟩ : classifyState st rr₀ = out ∧ True := by simpa using hcl
    subst h1
    show some (gateRR st rr₀) = some rr₀
    unfold gateRR
    rw [if_neg (fun hc => absurd hc.2 (by omega))]

/-- A parsed backend reply committing to mode `ANSWER` at raw confidence
`0.3`. -/
def exParsed2b : JObj :=
  [("mode", .str "ANSWER"), ("topic", .str "Python"),
   ("confidence", .num (3 / 10))]

/-- The normalization of `exParsed2b`. -/
def rrAnsC2 : RouterResult :=
  { mode := "ANSWER", topic := "Python", confidence := 3 / 10,
    missing_info := [], reason := .str "" }

lemma validate_exParsed2b : validate_router_result exParsed2b = .ok rrAnsC2 := by
  have hc : normConf (jGet exParsed2b "confidence") = 3 / 10 := by
    show max 0 (min 1 ((3 : ℚ) / 10)) = 3 / 10
    rw [min_eq_right (by norm_num), max_eq_right (by norm_num)]
  calc validate_router_result exParsed2b
      = .ok { mode := "ANSWER", topic := "Python",
              confidence := normConf (jGet exParsed2b "confidence"),
              missing_info := [], reason := .str "" } := rfl
    _ = .ok rrAnsC2 := by rw [hc]; rfl

/-- Witness for (amended) C2: at `attempts_clarify = 2`, a backend
decision with mode `ANSWER` and confidence `0.3` is kept verbatim. -/
theorem confidence_gate_witness :
    2 ≤ exSt2.attempts_clarify ∧
    validate_router_result exParsed2b = .ok rrAnsC2 ∧
    router_node exSt2 (some exParsed2b) = .ok (classifyState exSt2 rrAnsC2, true) ∧
    (classifyState exSt2 rrAnsC2).router_result = some rrAnsC2 := by
  have hroute : router_node exSt2 (some exParsed2b) =
      .ok (classifyState exSt2 rrAnsC2, true) := by
    rw [router_node_classify _ _ (Or.inr (by decide))]
    exact router_classify_some_ok _ _ _ validate_exParsed2b
  refine ⟨by norm_num [exSt2, exSt], validate_exParsed2b, hroute, ?_⟩
  exact (confidence_gate exSt2 (some exParsed2b) _ true hroute).2
    (by norm_num [exSt2, exSt]) exParsed2b rrAnsC2 rfl validate_exParsed2b rfl

/-! ## C3: validation normalizes parseable results -/

/-- Counterexample to C3 as stated: `validate_router_result` does not
return a normalized decision for every JSON-decoded dictionary — on
`{"mode": 5}` the Python code calls `5.upper()` and raises
`AttributeError` instead. -/
theorem validate_crash_counterexample :
    validate_router_result [("mode", JValue.num 5)] =
      .error "AttributeError: object has no attribute upper" := rfl

/-- The `mode`/`topic` field of `d`, when present, is a JSON string. -/
def strOrAbsent (d : JObj) (k : String) : Prop :=
  ∀ v, jGet d k = some v → ∃ s, v = JValue.str s

lemma valid_topics_lower_inj :
    ∀ a ∈ valid_topics, ∀ b ∈ valid_topics, pyLower a = pyLower b → a = b := by
  decide

lemma normMode_ok (v : Option JValue) (hv : ∀ w, v = some w → ∃ s, w = JValue.str s) :
    ∃ m, normMode v = .ok m ∧ m ∈ valid_modes ∧
      (v = none → m = "ASK_CLARIFY") ∧
      (∀ s, v = some (.str s) → pyUpper s ∉ valid_modes → m = "ASK_CLARIFY") := by
  cases v with
  | none =>
    refine ⟨"ASK_CLARIFY", rfl, by decide, fun _ => rfl, fun s hs => ?_⟩
    exact absurd hs (by simp)
  | some w =>
    obtain ⟨s, rfl⟩ := hv w rfl
    by_cases hmem : pyUpper s ∈ valid_modes
    · refine ⟨pyUpper s, by simp [normMode, hmem], hmem, fun h => ?_,
        fun s' hs' hmem' => ?_⟩
      · exact absurd h (by simp)
      · obtain rfl : s = s' := by injection hs' with h; injection h
        exact absurd hmem hmem'
    · refine ⟨"ASK_CLARIFY", by simp [normMode, hmem], by decide,
        fun h => ?_, fun _ _ _ => rfl⟩
      exact absurd h (by simp)

lemma normTopic_ok (v : Option JValue) (hv : ∀ w, v = some w → ∃ s, w = JValue.str s) :
    ∃ t, normTopic v = .ok t ∧ t ∈ valid_topics ∧
      (v = none → t = "Unknown") ∧
      (∀ s, v = some (.str s) → (∀ c ∈ valid_topics, pyLower c ≠ pyLower s) →
        t = "Unknown") ∧
      (∀ s c, v = some (.str s) → c ∈ valid_topics → pyLower c = pyLower s → t = c) := by
  cases v with
  | none =>
    refine ⟨"Unknown", rfl, by decide, fun _ => rfl, fun s hs => ?_, fun s c hs => ?_⟩
    · exact absurd hs (by simp)
    · exact absurd hs (by simp)
  | some w =>
    obtain ⟨s, rfl⟩ := hv w rfl
    cases hf : valid_topics.find? (fun c => pyLower c == pyLower s) with
    | none =>
      refine ⟨"Unknown", by simp [normTopic, hf], by decide, fun h => ?_,
        fun _ _ _ => rfl, fun s' c hs' hc hlow => ?_⟩
      · exact absurd h (by simp)
      · obtain rfl : s = s' := by injection hs' with h; injection h
        rw [List.find?_eq_none] at hf
        exact absurd (by rw [beq_iff_eq]; exact hlow) (hf c hc)
    | some c₀ =>
      have hc₀mem : c₀ ∈ valid_topics := List.mem_of_find?_eq_some hf
      have hc₀p := List.find?_some hf
      refine ⟨c₀, by simp [normTopic, hf], hc₀mem, fun h => ?_,
        fun s' hs' hnone => ?_, fun s' c hs' hc hlow => ?_⟩
      · exact absurd h (by simp)
      · obtain rfl : s = s' := by injection hs' with h; injection h
        exact absurd (beq_iff_eq.mp hc₀p) (hnone c₀ hc₀mem)
      · obtain rfl : s = s' := by injection hs' with h; injection h
        exact valid_topics_lower_inj c₀ hc₀mem c hc
          ((beq_iff_eq.mp hc₀p).trans hlow.symm)

lemma half_clamp : max 0 (min 1 ((1 : ℚ) / 2)) = 1 / 2 := by
  rw [min_eq_right (by norm_num), max_eq_right (by norm_num)]

lemma normConf_nonneg (v : Option JValue) : 0 ≤ normConf v := le_max_left 0 _

lemma normConf_le_one (v : Option JValue) : normConf v ≤ 1 :=
  max_le zero_le_one (min_le_left 1 _)

lemma normConf_of_other (v : JValue) (hq : ∀ q, v ≠ .num q) (hb : ∀ b, v ≠ .bool b) :
    normConf (some v) = 1 / 2 := by
  cases v with
  | num q => exact absurd rfl (hq q)
  | bool b => exact absurd rfl (hb b)
  | null => exact half_clamp
  | str s => exact half_clamp
  | arr xs => exact half_clamp
  | obj kvs => exact half_clamp

/-- C3 (amended): for every JSON-decoded dictionary whose `mode` and
`topic` fields, when present, are strings, `validate_router_result`
returns a normalized decision: mode is one of the six enumerated values
(defaulting to `ASK_CLARIFY` when missing or unrecognized), topic is
matched case-insensitively against the closed topic set (defaulting to
`Unknown`), confidence is clamped to `[0,1]` (defaulting to `0.5` when
missing or neither a number nor a boolean — booleans count as Python
numbers), and `missing_info` defaults to the empty list when absent or
not a list. When `mode` or `topic` is a non-string, the function
raises instead (see the counterexample). -/
theorem validate_normalizes (d : JObj)
    (hm : strOrAbsent d "mode") (ht : strOrAbsent d "topic") :
    ∃ r, validate_router_result d = .ok r ∧
      r.mode ∈ valid_modes ∧
      r.topic ∈ valid_topics ∧
      0 ≤ r.confidence ∧ r.confidence ≤ 1 ∧
      (jGet d "mode" = none → r.mode = "ASK_CLARIFY") ∧
      (∀ s, jGet d "mode" = some (.str s) → pyUpper s ∉ valid_modes →
        r.mode = "ASK_CLARIFY") ∧
      (jGet d "topic" = none → r.topic = "Unknown") ∧
      (∀ s, jGet d "topic" = some (.str s) →
        (∀ c ∈ valid_topics, pyLower c ≠ pyLower s) → r.topic = "Unknown") ∧
      (∀ s c, jGet d "topic" = some (.str s) → c ∈ valid_topics →
        pyLower c = pyLower s → r.topic = c) ∧
      (jGet d "confidence" = none → r.confidence = 1 / 2) ∧
      (∀ v, jGet d "confidence" = some v → (∀ q, v ≠ .num q) →
        (∀ b, v ≠ .bool b) → r.confidence = 1 / 2) ∧
      (jGet d "missing_info" = none → r.missing_info = []) ∧
      (∀ v, jGet d "missing_info" = some v → (∀ xs, v ≠ .arr xs) →
        r.missing_info = []) ∧
      (∀ xs, jGet d "missing_info" = some (.arr xs) → r.missing_info = xs) := by
  obtain ⟨m, hmode, hm1, hm2, hm3⟩ := normMode_ok (jGet d "mode") hm
  obtain ⟨t, htopic, ht1, ht2, ht3, ht4⟩ := normTopic_ok (jGet d "topic") ht
  refine ⟨{ mode := m, topic := t,
            confidence := normConf (jGet d "confidence"),
            missing_info := normMissing (jGet d "missing_info"),
            reason := normReason (jGet d "reason") }, ?_, hm1, ht1,
          normConf_nonneg _, normConf_le_one _, hm2, hm3, ht2, ht3, ht4,
          ?_, ?_, ?_, ?_, ?_⟩
  · unfold validate_router_result
    rw [hmode, htopic]
    rfl
  · intro hc
    show normConf (jGet d "confidence") = 1 / 2
    rw [hc]
    exact half_clamp
  · intro v hc hq hb
    show normConf (jGet d "confidence") = 1 / 2
    rw [hc]
    exact normConf_of_other v hq hb
  · intro hmi
    show normMissing (jGet d "missing_info") = []
    rw [hmi]
    rfl
  · intro v hmi harr
    show normMissing (jGet d "missing_info") = []
    rw [hmi]
    cases v with
    | arr xs => exact absurd rfl (harr xs)
    | null => rfl
    | bool b => rfl
    | num q => rfl
    | str s => rfl
    | obj kvs => rfl
  · intro xs hmi
    show normMissing (jGet d "missing_info") = xs
    rw [hmi]
    rfl

/-- A concrete parsed reply with no `mode`/`topic`, a non-numeric
confidence and a non-list `missing_info`. -/
def exParsed3 : JObj :=
  [("confidence", .str "high"), ("missing_info", .num 3), ("reason", .str "r")]

/-- Witness for (amended) C3 at `exParsed3`. -/
theorem validate_normalizes_witness :
    strOrAbsent exParsed3 "mode" ∧ strOrAbsent exParsed3 "topic" ∧
    ∃ r, validate_router_result exParsed3 = .ok r ∧
      r.mode ∈ valid_modes ∧ r.topic ∈ valid_topics ∧
      0 ≤ r.confidence ∧ r.confidence ≤ 1 := by
  have hm : strOrAbsent exParsed3 "mode" := fun v hv => absurd hv (by simp [jGet, exParsed3])
  have ht : strOrAbsent exParsed3 "topic" := fun v hv => absurd hv (by simp [jGet, exParsed3])
  obtain ⟨r, h1, h2, h3, h4, h5, -⟩ := validate_normalizes exParsed3 hm ht
  exact ⟨hm, ht, r, h1, h2, h3, h4, h5⟩

/-! ## C4: parse-failure fallback -/

lemma gateRR_fallback (st : StudyState) : gateRR st (fallbackRR st) = fallbackRR st := by
  unfold gateRR
  split
  · rfl
  · rfl

/-- C4: whenever the defensive parser extracts no JSON object from the
backend text, the router synthesizes the fallback decision — mode
`ASK_CLARIFY`, topic equal to the prior subject's value when one exists
and `Unknown` otherwise, confidence `0.3` — with the backend counted as
consulted; and the parser is a pure function, so parsing the same
unparseable text twice yields the same result both times. -/
theorem parse_fallback (reSearch : String → Option String)
    (jsonLoads : String → Option JObj) (text : String) (st : StudyState)
    (hf : st.current_subject = none ∨ detect_simplify_intent st.user_message = false)
    (hp : parse_router_json reSearch jsonLoads text = none) :
    router_node st (parse_router_json reSearch jsonLoads text) =
      .ok (classifyState st (fallbackRR st), true) ∧
    (classifyState st (fallbackRR st)).router_result = some (fallbackRR st) ∧
    (fallbackRR st).mode = "ASK_CLARIFY" ∧
    (fallbackRR st).confidence = 3 / 10 ∧
    (fallbackRR st).topic = (match st.current_subject with
                             | some s => s.value
                             | none => "Unknown") ∧
    parse_router_json reSearch jsonLoads text =
      parse_router_json reSearch jsonLoads text := by
  refine ⟨?_, ?_, rfl, rfl, rfl, rfl⟩
  · rw [hp, router_node_classify st none hf, router_classify_none]
  · show some (gateRR st (fallbackRR st)) = some (fallbackRR st)
    rw [gateRR_fallback]

/-- A fenced-block matcher that finds nothing. -/
def reSearchNone : String → Option String := fun _ => none

/-- A JSON decoder that rejects every candidate. -/
def jsonLoadsNone : String → Option JObj := fun _ => none

/-- A state whose utterance carries no simplify keyword, mid-session on
the Python subject. -/
def exSt4 : StudyState :=
  { exSt with user_message := "tell me more about edges",
              current_subject := some .PYTHON }

/-- Witness for C4 on a backend text with no braces at all. -/
theorem parse_fallback_witness :
    (exSt4.current_subject = none ∨
       detect_simplify_intent exSt4.user_message = false) ∧
    parse_router_json reSearchNone jsonLoadsNone "The router hums quietly" = none ∧
    (router_node exSt4
        (parse_router_json reSearchNone jsonLoadsNone "The router hums quietly") =
      .ok (classifyState exSt4 (fallbackRR exSt4), true) ∧
     (classifyState exSt4 (fallbackRR exSt4)).router_result =
       some (fallbackRR exSt4) ∧
     (fallbackRR exSt4).mode = "ASK_CLARIFY" ∧
     (fallbackRR exSt4).confidence = 3 / 10 ∧
     (fallbackRR exSt4).topic = (match exSt4.current_subject with
                                 | some s => s.value
                                 | none => "Unknown") ∧
     parse_router_json reSearchNone jsonLoadsNone "The router hums quietly" =
       parse_router_json reSearchNone jsonLoadsNone "The router hums quietly") :=
  ⟨Or.inr (by decide), rfl,
   parse_fallback reSearchNone jsonLoadsNone "The router hums quietly" exSt4
     (Or.inr (by decide)) rfl⟩

/-! ## C5: exactly one revision pass -/

/-- C5: when the quality gate fails a reply, the conditional edge routes
to the revise node; the rewritten reply becomes the turn's final answer
(`messages[-1]`), the revise node marks verification as passed, and the
edge out of `revise` goes unconditionally to `END` — so the revised
reply is never verified again and at most one revision occurs per
turn. -/
theorem revision_single_pass (st : StudyState) (revisedContent : String)
    (hfail : st.verifier_passed = false) (hne : st.messages ≠ []) :
    should_revise st = .revise ∧
    graph_next .verifier st = some .revise ∧
    finalAnswer (revise_node st revisedContent) = some revisedContent ∧
    (revise_node st revisedContent).verifier_passed = true ∧
    (∀ st2, graph_next .revise st2 = some .terminal) := by
  have hemp : ¬ (st.messages.isEmpty = true) := by
    simpa [List.isEmpty_iff] using hne
  have h1 : should_revise st = .revise := by simp [should_revise, hfail]
  refine ⟨h1, by simp [graph_next, h1], ?_, ?_, fun st2 => rfl⟩
  · unfold revise_node
    rw [if_neg hemp]
    unfold finalAnswer
    simp
  · unfold revise_node
    rw [if_neg hemp]

/-- A state holding a long failing LangGraph reply awaiting revision. -/
def exSt5 : StudyState :=
  { exSt with
    messages := [⟨String.mk (List.replicate 120 'x'), false⟩],
    style := "normal", verifier_passed := false }

/-- Witness for C5 at a concrete failing turn. -/
theorem revision_single_pass_witness :
    exSt5.verifier_passed = false ∧ exSt5.messages ≠ [] ∧
    (should_revise exSt5 = .revise ∧
     graph_next .verifier exSt5 = some .revise ∧
     finalAnswer (revise_node exSt5 "a sharper reply") = some "a sharper reply" ∧
     (revise_node exSt5 "a sharper reply").verifier_passed = true ∧
     (∀ st2, graph_next .revise st2 = some .terminal)) :=
  ⟨rfl, by simp [exSt5, exSt],
   revision_single_pass exSt5 "a sharper reply" rfl (by simp [exSt5, exSt])⟩

/-! ## C6 and C7: the quality gate -/

/-- The gating condition of `verifier_node`: a last reply exists, carries
no tool calls, the style is not `simple`, the reply has at least 100
characters, and the subject is LangGraph. -/
def verificationApplies (st : StudyState) : Bool :=
  match st.messages.getLast? with
  | none => false
  | some last_message =>
    !last_message.toolCalls && !(st.style == "simple") &&
    !(decide (last_message.content.length < 100)) &&
    (st.current_subject == some .LANGGRAPH)

/-- C6: the verifier consults the quality-gate backend exactly when
`verificationApplies` holds (no pending tool calls, subject LangGraph,
style not `simple`, reply at least 100 characters); in every other case
it approves the reply without a backend call and no revision follows. -/
theorem verifier_gating (st : StudyState) (verdict : VerdictCall) :
    (verifier_node st verdict).2 = verificationApplies st ∧
    (verificationApplies st = false →
       (verifier_node st verdict).1 = { st with verifier_passed := true } ∧
       should_revise (verifier_node st verdict).1 = .done) := by
  have hmain : (verifier_node st verdict).2 = verificationApplies st ∧
      (verificationApplies st = false →
        (verifier_node st verdict).1 = { st with verifier_passed := true }) := by
    unfold verifier_node verificationApplies
    cases hl : st.messages.getLast? with
    | none => exact ⟨rfl, fun _ => rfl⟩
    | some last_message =>
      dsimp only
      by_cases h1 : last_message.toolCalls = true
      · rw [if_pos h1]
        exact ⟨by simp [h1], fun _ => rfl⟩
      · rw [if_neg h1]
        by_cases h2 : (st.style == "simple") = true
        · rw [if_pos h2]
          exact ⟨by simp [h1, h2], fun _ => rfl⟩
        · rw [if_neg h2]
          by_cases h3 : last_message.content.length < 100
          · rw [if_pos h3]
            exact ⟨by simp [h1, h2, h3], fun _ => rfl⟩
          · rw [if_neg h3]
            by_cases h4 : st.current_subject = some Subject.LANGGRAPH
            · rw [if_neg (not_not_intro h4)]
              have hb : (!last_message.toolCalls && !(st.style == "simple") &&
                  !(decide (last_message.content.length < 100)) &&
                  (st.current_subject == some Subject.LANGGRAPH)) = true := by
                simp [h1, h2, h3, h4]
              rw [hb]
              refine ⟨?_, fun hno => ?_⟩
              · cases verdict with
                | failure => rfl
                | response parsed =>
                  cases parsed with
                  | none => rfl
                  | some p => dsimp only; split <;> rfl
              · simp at hno
            · rw [if_pos h4]
              refine ⟨?_, fun _ => rfl⟩
              simp [beq_iff_eq, h4]
  refine ⟨hmain.1, fun hno => ⟨hmain.2 hno, ?_⟩⟩
  rw [hmain.2 hno]
  simp [should_revise]

/-- A verification-eligible state with the `simple` style, which must
skip the quality gate. -/
def exSt6 : StudyState :=
  { exSt with
    messages := [⟨String.mk (List.replicate 120 'x'), false⟩],
    style := "simple", verifier_passed := false }

/-- Witness for C6: with style `simple` the gate does not apply, the
reply is approved without a backend call, and no revision follows. -/
theorem verifier_gating_witness :
    verificationApplies exSt6 = false ∧
    (verifier_node exSt6 .failure).2 = verificationApplies exSt6 ∧
    (verifier_node exSt6 .failure).1 = { exSt6 with verifier_passed := true } ∧
    should_revise (verifier_node exSt6 .failure).1 = .done :=
  ⟨rfl, (verifier_gating exSt6 .failure).1,
   (verifier_gating exSt6 .failure).2 rfl⟩

/-- C7: when the quality-gate backend call raises, or its output is
unparseable (the defensive parser yields nothing), the verifier marks
the reply as passed and no revision is triggered; the failure is
absorbed, never surfaced. -/
theorem verifier_advisory (st : StudyState) (verdict : VerdictCall)
    (h : verdict = VerdictCall.failure ∨ verdict = VerdictCall.response none) :
    (verifier_node st verdict).1.verifier_passed = true ∧
    should_revise (verifier_node st verdict).1 = .done := by
  have hpass : (verifier_node st verdict).1.verifier_passed = true := by
    rcases h with rfl | rfl <;>
    · unfold verifier_node
      cases st.messages.getLast? with
      | none => rfl
      | some last_message =>
        dsimp only
        split_ifs <;> rfl
  exact ⟨hpass, by simp [should_revise, hpass]⟩

/-- Witness for C7: a backend exception on a verification-eligible turn
still passes. -/
theorem verifier_advisory_witness :
    (VerdictCall.failure = VerdictCall.failure ∨
       VerdictCall.failure = VerdictCall.response none) ∧
    (verifier_node exSt5 .failure).1.verifier_passed = true ∧
    should_revise (verifier_node exSt5 .failure).1 = .done :=
  ⟨Or.inl rfl, verifier_advisory exSt5 .failure (Or.inl rfl)⟩

/-! ## C9: keyword search over notes -/

/-- A note matches a (lower-cased) query when the query occurs in its
lower-cased content or in some lower-cased tag. -/
def noteMatches (query_lower : String) (note : Note) : Bool :=
  strIn query_lower (pyLower note.content) ||
  note.tags.any (fun tag => strIn query_lower (pyLower tag))

lemma search_go_filter (q : String) (notes : List Note) :
    search_notes.go q notes = notes.filter (noteMatches q) := by
  induction notes with
  | nil => rfl
  | cons n rest ih =>
    unfold search_notes.go
    by_cases h1 : strIn q (pyLower n.content) = true
    · rw [if_pos h1, ih, List.filter_cons_of_pos (by simp [noteMatches, h1])]
    · rw [if_neg h1]
      by_cases h2 : (n.tags.any fun tag => strIn q (pyLower tag)) = true
      · rw [if_pos h2, ih, List.filter_cons_of_pos (by simp [noteMatches, h1, h2])]
      · rw [if_neg h2, ih, List.filter_cons_of_neg (by simp [noteMatches, h1, h2])]

/-- C9: the keyword search returns exactly the notes whose lower-cased
content or some lower-cased tag contains the lower-cased query — it is
the order-preserving filter of the stored list, hence a sublist of it,
and it contains no duplicates when the store has none (a note matching
on both content and a tag is appended only once). -/
theorem search_notes_spec (notes : List Note) (query : String) :
    search_notes notes query = notes.filter (noteMatches (pyLower query)) ∧
    (search_notes notes query).Sublist notes ∧
    (notes.Nodup → (search_notes notes query).Nodup) := by
  have h : search_notes notes query = notes.filter (noteMatches (pyLower query)) := by
    unfold search_notes
    exact search_go_filter (pyLower query) notes
  exact ⟨h, h ▸ List.filter_sublist _, fun hnd => h ▸ hnd.filter _⟩

/-- Three stored notes: one matching on content, one matching only on an
upper-cased tag, one not matching. -/
def exNotes : List Note :=
  [⟨"n1", .LANGGRAPH, "Reducers merge state in LangGraph", ["graph"]⟩,
   ⟨"n2", .LANGGRAPH, "pandas basics", ["data", "GRAPH"]⟩,
   ⟨"n3", .LANGGRAPH, "http requests", []⟩]

/-- Witness for C9 at a concrete store and query. -/
theorem search_notes_spec_witness :
    exNotes.Nodup ∧
    search_notes exNotes "graph" = exNotes.filter (noteMatches (pyLower "graph")) ∧
    (search_notes exNotes "graph").Sublist exNotes ∧
    (search_notes exNotes "graph").Nodup := by
  have h := search_notes_spec exNotes "graph"
  have hnd : exNotes.Nodup := by decide
  exact ⟨hnd, h.1, h.2.1, h.2.2 hnd⟩
